import Mathlib

/-!
Shallow embedding of `app.py` from the GreenUrban-Planner repository:
a Streamlit dashboard that builds prompt strings from form inputs,
sends them through a single wrapper (`generate_text`) around the
Google GenAI client, and renders the returned text or an error box.

Modelling conventions:
* The process environment is a function `String → Option String`
  (the result of `os.getenv`).  Python truthiness of such a value
  (`None` and `""` are falsy) is `pyTruthy`.
* The outcome of the one outbound network call
  `client.models.generate_content(model=model_name, contents=prompt)`
  is an oracle `GenCall : String → String → Except String String`:
  `Except.ok text` is a successful response with `response.text = text`,
  `Except.error e` is a raised exception with `str(e) = e`.
* `st.session_state.messages` is a `List Turn`; `list.append` is
  appending at the right end.
* Each page handler is a function from the oracle and the form inputs
  to a `Render` value recording which branch ran (`st.error` vs the
  success path) and with what payload.
-/

namespace GreenUrban

/-- The role tag of one chat message on the AI Assistant page. -/
inductive Role where
  | user
  | assistant

deriving instance DecidableEq, Repr for Role

/-- One entry of `st.session_state.messages`:
a dict with keys `role` and `content` (app.py lines 217 and 233). -/
structure Turn where
  role : Role
  content : String

deriving instance DecidableEq, Repr for Turn

/-- The process environment as seen by `os.getenv`. -/
abbrev Env := String → Option String

/-- Python truthiness of an `os.getenv` result: `None` and `""` are falsy. -/
def pyTruthy : Option String → Bool
  | none => false
  | some s => s != ""

/-- Python `a or b` on two `os.getenv` results: the first operand when it
is truthy, otherwise the second operand unchanged. -/
def pyOr (a b : Option String) : Option String :=
  if pyTruthy a then a else b

/-- The value `genai.Client(api_key=...)` is constructed from. -/
structure Client where
  api_key : String

deriving instance DecidableEq, Repr for Client

/-- The diagnostic printed by `st.error` in `get_genai_client`
(app.py line 63) when no usable key is found. -/
def missingKeyMsg : String :=
  "GEMINI_API_KEY not found. Put your API key into a .env file (GEMINI_API_KEY=...) or export an env var."

/-- `get_genai_client` (app.py lines 57-68):
`api_key = os.getenv("GEMINI_API_KEY") or os.getenv("GOOGLE_API_KEY")`;
if `not api_key` the app shows `missingKeyMsg` and `st.stop()` halts the
script (modelled as `Except.error`), otherwise `genai.Client(api_key=api_key)`
is returned. -/
def get_genai_client (env : Env) : Except String Client :=
  match pyOr (env "GEMINI_API_KEY") (env "GOOGLE_API_KEY") with
  | none => Except.error missingKeyMsg
  | some k => if k == "" then Except.error missingKeyMsg else Except.ok ⟨k⟩

/-- Outcome of `client.models.generate_content(model=model_name, contents=prompt)`,
as a function of `model_name` and `prompt`. -/
abbrev GenCall := String → String → Except String String

/-- `generate_text` (app.py lines 73-83): calls the client and returns
`response.text`; any raised exception `e` is caught and rendered as the
string `"[ERROR] " ++ str(e)`. -/
def generate_text (net : GenCall) (prompt : String)
    (model_name : String := "gemini-2.5-flash") : String :=
  match net model_name prompt with
  | Except.ok text => text
  | Except.error e => "[ERROR] " ++ e

/-- Python `str.startswith`, character by character. -/
def pyStartsWith (s pre : String) : Bool :=
  pre.data.isPrefixOf s.data

/-- `st.session_state.messages` as an abstract conversation store. -/
abbrev ConversationStore := List Turn

/-- `st.session_state.messages.append(turn)` (app.py lines 217, 233). -/
def ConversationStore.append (s : ConversationStore) (t : Turn) : ConversationStore :=
  s ++ [t]

/-- Reading the whole transcript, as the history-rendering loop does
(app.py lines 212-214). -/
def ConversationStore.all (s : ConversationStore) : List Turn := s

/-- `st.session_state.messages = []` under the Clear Chat History button
(app.py line 236). -/
def ConversationStore.clear (_ : ConversationStore) : ConversationStore := []

/-- The store created on first visit (app.py lines 209-210). -/
def ConversationStore.empty : ConversationStore := []

/-- Appending a whole sequence of turns, one `append` per turn. -/
def appendSeq (s : ConversationStore) (ts : List Turn) : ConversationStore :=
  ts.foldl ConversationStore.append s

/-- A prompt request: one constructor per trigger action in app.py,
carrying exactly the form inputs interpolated into that template. -/
inductive PromptRequest where
  | insights
  | smartSolutions (solution_type : String)
  | greenTech (building_type climate_zone : String)
  | assistantQ (user_question : String)
  | cityComparison (cities : List String)
  | techROI (tech : String) (investment : Nat)
  | impactAssessment (scenario : String)
  | futureTrends (timeframe : Nat)

deriving instance DecidableEq, Repr for PromptRequest

/-- The prompt text each page builds before calling `generate_text`,
transcribed from app.py (lines 137-141, 158-164, 184-191, 223-227,
264-266, 283-285, 302-304, 317-319). -/
def build : PromptRequest → String
  | .insights =>
      "Provide 3 brief, current insights about smart cities and green buildings. Each insight should be 1-2 sentences. Focus on recent innovations, technologies, or trends. Format as JSON with keys: insight1, insight2, insight3"
  | .smartSolutions solution_type =>
      "Generate 5 innovative " ++ solution_type ++
      " solutions for smart cities. For each solution, provide:\n1. Solution name\n2. Brief description (2-3 sentences)\n3. Key technology used\n4. Expected impact\n\nFormat as a numbered list."
  | .greenTech building_type climate_zone =>
      "Recommend 5 specific green building technologies for a " ++ building_type ++
      " building in a " ++ climate_zone ++
      " climate. For each technology:\n1. Technology name\n2. How it works\n3. Energy savings potential\n4. Cost-effectiveness\n5. Implementation difficulty\n\nBe specific and practical."
  | .assistantQ user_question =>
      "You are an expert in smart cities and green buildings. Answer this question professionally and practically: " ++
      user_question ++
      "\n\nProvide actionable insights and real-world examples where relevant."
  | .cityComparison cities =>
      "Compare these cities in terms of smart city and green building initiatives: " ++
      String.intercalate ", " cities ++
      "\n\nProvide:\n1. Overall sustainability ranking\n2. Key strengths of each city\n3. Innovative technologies used\n4. Lessons learned\n5. Best practices to adopt\n\nBe specific with examples."
  | .techROI tech investment =>
      "Calculate detailed ROI for " ++ tech ++ " with an investment of $" ++
      toString investment ++
      ".\n\nInclude:\n1. Payback period\n2. Annual savings\n3. 10-year cost-benefit analysis\n4. Environmental impact (CO2 reduction)\n5. Maintenance costs\n6. Risk factors\n\nUse realistic industry averages."
  | .impactAssessment scenario =>
      "Conduct a detailed environmental impact assessment for: " ++ scenario ++
      "\n\nAnalyze:\n1. Carbon emission reduction (tons/year)\n2. Energy savings (MWh/year)\n3. Water conservation (gallons/year)\n4. Cost savings (USD/year)\n5. Job creation potential\n6. Social benefits\n7. Implementation challenges\n\nProvide specific numbers and calculations."
  | .futureTrends timeframe =>
      "Predict smart city and green building trends for the next " ++
      toString timeframe ++
      " years.\n\nCover:\n1. Emerging technologies\n2. Policy changes expected\n3. Market evolution\n4. Consumer behavior shifts\n5. Major challenges ahead\n6. Investment opportunities\n7. Breakthrough innovations likely\n\nBe forward-thinking but realistic."

/-- What a page handler leaves on the display surface: the `st.error`
branch with its message, or the success branch with the completion text. -/
inductive Render where
  | errorBox (msg : String)
  | content (text : String)

deriving instance DecidableEq, Repr for Render

/-- The shared button-handler shape used by every non-chat page
(e.g. app.py lines 142-148): call `generate_text` on the built prompt
and dispatch on `output.startswith("[ERROR]")`. -/
def pageRun (net : GenCall) (req : PromptRequest) : Render :=
  let output := generate_text net (build req)
  if pyStartsWith output "[ERROR]" then Render.errorBox output else Render.content output

/-- The Home-page insights button handler (app.py lines 135-148). -/
def homeInsights (net : GenCall) : Render :=
  pageRun net PromptRequest.insights

/-- One chat submission on the AI Assistant page (app.py lines 216-233):
append the user turn, call `generate_text` on the assistant prompt, show
`st.error` on an `[ERROR]` output, otherwise render the reply and append
the assistant turn. -/
def assistantInteraction (net : GenCall) (store : ConversationStore)
    (user_question : String) : ConversationStore × Render :=
  let store1 := store.append ⟨Role.user, user_question⟩
  let output := generate_text net (build (PromptRequest.assistantQ user_question))
  if pyStartsWith output "[ERROR]" then
    (store1, Render.errorBox output)
  else
    (store1.append ⟨Role.assistant, output⟩, Render.content output)

/-- One user trigger action, with the form inputs it carries. -/
inductive Interaction where
  | homeClick
  | pageClick (req : PromptRequest)
  | chatSubmit (store : ConversationStore) (user_question : String)

/-- What one script run produces after the client is available. -/
inductive AppOutcome where
  | halted (diagnostic : String)
  | rendered (page : Render)

deriving instance DecidableEq, Repr for AppOutcome

/-- One top-to-bottom run of the script for a given trigger action:
`client = get_genai_client()` at app.py line 70 runs before any page
block, and `st.stop()` inside it prevents every page from rendering. -/
def runApp (env : Env) (net : GenCall) (act : Interaction) : AppOutcome :=
  match get_genai_client env with
  | Except.error m => AppOutcome.halted m
  | Except.ok _ =>
      match act with
      | Interaction.homeClick => AppOutcome.rendered (homeInsights net)
      | Interaction.pageClick req => AppOutcome.rendered (pageRun net req)
      | Interaction.chatSubmit store q =>
          AppOutcome.rendered (assistantInteraction net store q).2

end GreenUrban

namespace GreenUrban

/-! ## Helper lemmas -/

/-- Folding `append` over a list of turns concatenates it on the right. -/
theorem appendSeq_append (ts : List Turn) (s : ConversationStore) :
    appendSeq s ts = s ++ ts := by
  induction ts generalizing s with
  | nil => simp [appendSeq]
  | cons t ts ih =>
      simp [appendSeq, ConversationStore.append] at ih ⊢
      rw [ih, List.append_assoc]
      rfl

/-- A character list is a Boolean prefix of itself followed by anything. -/
theorem isPrefixOf_self_append (l t : List Char) : l.isPrefixOf (l ++ t) = true := by
  induction l with
  | nil => simp [List.isPrefixOf]
  | cons a l ih => simp [List.isPrefixOf, ih]

/-- Every string produced by the except-branch of `generate_text` starts
with the literal tag checked by the pages. -/
theorem pyStartsWith_err (e : String) :
    pyStartsWith ("[ERROR] " ++ e) "[ERROR]" = true := by
  unfold pyStartsWith
  rw [String.data_append]
  have h8 : ("[ERROR] " : String).data = "[ERROR]".data ++ [' '] := rfl
  rw [h8, List.append_assoc]
  exact isPrefixOf_self_append _ _

/-- The except-branch of `generate_text` never returns the empty string. -/
theorem err_ne_empty (e : String) : ("[ERROR] " ++ e) ≠ "" := by
  intro h
  have h2 := congrArg String.length h
  rw [String.length_append] at h2
  have h3 : ("[ERROR] " : String).length = 8 := rfl
  have h4 : ("" : String).length = 0 := rfl
  omega

end GreenUrban

namespace GreenUrban

/-! ## Claim theorems -/

/-- C1: `generate_text` never propagates a failure of the underlying
generation call past its boundary: the match on the call outcome is
total, a raised exception with message `e` is converted to the returned
string `"[ERROR] " ++ e` — a non-empty human-readable rendering of the
error — and a successful call returns the raw completion text unchanged. -/
theorem generate_text_never_raises (net : GenCall) (prompt model_name : String) :
    (∀ e, net model_name prompt = Except.error e →
        generate_text net prompt model_name = "[ERROR] " ++ e ∧
        generate_text net prompt model_name ≠ "") ∧
    (∀ t, net model_name prompt = Except.ok t →
        generate_text net prompt model_name = t) := by
  constructor
  · intro e he
    unfold generate_text
    rw [he]
    exact ⟨rfl, err_ne_empty e⟩
  · intro t ht
    unfold generate_text
    rw [ht]

/-- Witness for C1 at a concrete failing and a concrete succeeding call. -/
theorem generate_text_never_raises_witness :
    generate_text (fun _ _ => Except.error "quota exceeded") "p" = "[ERROR] " ++ "quota exceeded" ∧
    generate_text (fun _ _ => Except.error "quota exceeded") "p" ≠ "" ∧
    generate_text (fun _ _ => Except.ok "fine") "p" = "fine" := by
  have h1 := generate_text_never_raises (fun _ _ => Except.error "quota exceeded") "p" "gemini-2.5-flash"
  have h2 := generate_text_never_raises (fun _ _ => Except.ok "fine") "p" "gemini-2.5-flash"
  exact ⟨(h1.1 "quota exceeded" rfl).1, (h1.1 "quota exceeded" rfl).2, h2.2 "fine" rfl⟩

/-- C2: when the API credential is absent from the process environment
(neither GEMINI_API_KEY nor GOOGLE_API_KEY is set), the script-level
client construction halts the run with the descriptive missing-key
diagnostic before any page renders: the outcome is `halted` and is never
`rendered`, for every page interaction, so no page handler (hence no
completion call) runs without a constructed client. -/
theorem missing_credential_halts (env : Env) (net : GenCall) (act : Interaction)
    (h1 : env "GEMINI_API_KEY" = none) (h2 : env "GOOGLE_API_KEY" = none) :
    runApp env net act = AppOutcome.halted missingKeyMsg ∧
    missingKeyMsg ≠ "" ∧
    ∀ r, runApp env net act ≠ AppOutcome.rendered r := by
  have hc : get_genai_client env = Except.error missingKeyMsg := by
    unfold get_genai_client pyOr
    rw [h1, h2]
    rfl
  refine ⟨?_, by decide, ?_⟩
  · unfold runApp
    rw [hc]
  · intro r hr
    unfold runApp at hr
    rw [hc] at hr
    exact AppOutcome.noConfusion hr

/-- The empty environment. -/
def envNone : Env := fun _ => none

/-- Witness for C2 at the empty environment and a concrete interaction. -/
theorem missing_credential_halts_witness :
    runApp envNone (fun _ _ => Except.ok "t") Interaction.homeClick =
      AppOutcome.halted missingKeyMsg ∧ missingKeyMsg ≠ "" := by
  have h := missing_credential_halts envNone (fun _ _ => Except.ok "t") Interaction.homeClick rfl rfl
  exact ⟨h.1, h.2.1⟩

/-- C3: the conversation store is append-only and order-preserving:
appending any sequence of turns to any store concatenates them on the
right in submission order (no reordering, no deduplication); from the
initial empty store the result is exactly that sequence; and `clear`
yields the empty sequence afterward. -/
theorem conversation_append_only (s : ConversationStore) (ts : List Turn) :
    ConversationStore.all (appendSeq s ts) = ConversationStore.all s ++ ts ∧
    ConversationStore.all (appendSeq ConversationStore.empty ts) = ts ∧
    ConversationStore.all (ConversationStore.clear (appendSeq s ts)) = [] := by
  refine ⟨appendSeq_append ts s, ?_, rfl⟩
  rw [show ConversationStore.all (appendSeq ConversationStore.empty ts) =
        appendSeq ConversationStore.empty ts from rfl,
      appendSeq_append]
  exact List.nil_append ts

end GreenUrban

namespace GreenUrban

/-- C4: when the completion call for a submitted chat message raises (the
client returns the Err rendering), the assistant page surfaces the error
message in the error box and appends no assistant turn: the store after
the interaction is the store before it extended by exactly the one user
turn appended before the call. -/
theorem assistant_err_frame (net : GenCall) (store : ConversationStore) (q e : String)
    (h : net "gemini-2.5-flash" (build (PromptRequest.assistantQ q)) = Except.error e) :
    (assistantInteraction net store q).1 = store ++ [⟨Role.user, q⟩] ∧
    (assistantInteraction net store q).2 = Render.errorBox ("[ERROR] " ++ e) := by
  have hout : generate_text net (build (PromptRequest.assistantQ q)) = "[ERROR] " ++ e := by
    unfold generate_text
    rw [h]
  simp only [assistantInteraction, hout, pyStartsWith_err, if_true]
  exact ⟨rfl, trivial⟩

/-- Witness for C4 at a concrete failing call. -/
theorem assistant_err_frame_witness :
    (assistantInteraction (fun _ _ => Except.error "timeout") [] "hello").1 =
      [] ++ [⟨Role.user, "hello"⟩] ∧
    (assistantInteraction (fun _ _ => Except.error "timeout") [] "hello").2 =
      Render.errorBox ("[ERROR] " ++ "timeout") :=
  assistant_err_frame (fun _ _ => Except.error "timeout") [] "hello" "timeout" rfl

/-- C5: the pages discriminate success from failure solely by whether the
returned string starts with the literal "[ERROR]" string, so a successful
completion whose text begins with that tag is rendered as an error — on
the home page via the error box, and on the assistant page it is not
appended to the store — and the Ok and Err output ranges of
`generate_text` overlap on such strings. -/
theorem err_prefix_collision (t q : String) (store : ConversationStore)
    (h : pyStartsWith t "[ERROR]" = true) :
    homeInsights (fun _ _ => Except.ok t) = Render.errorBox t ∧
    (assistantInteraction (fun _ _ => Except.ok t) store q).1 =
      store ++ [⟨Role.user, q⟩] ∧
    (assistantInteraction (fun _ _ => Except.ok t) store q).2 = Render.errorBox t ∧
    generate_text (fun _ _ => Except.ok ("[ERROR] " ++ q)) q =
      generate_text (fun _ _ => Except.error q) q := by
  refine ⟨?_, ?_, ?_, rfl⟩
  · simp only [homeInsights, pageRun, generate_text, h, if_true]
  · simp only [assistantInteraction, generate_text, h, if_true]
    rfl
  · simp only [assistantInteraction, generate_text, h, if_true]

/-- Witness for C5 at a concrete Ok completion that begins with the tag. -/
theorem err_prefix_collision_witness :
    homeInsights (fun _ _ => Except.ok "[ERROR] not really an error") =
      Render.errorBox "[ERROR] not really an error" ∧
    (assistantInteraction (fun _ _ => Except.ok "[ERROR] not really an error") [] "q").1 =
      [] ++ [⟨Role.user, "q"⟩] := by
  have h := err_prefix_collision "[ERROR] not really an error" "q" [] (by decide)
  exact ⟨h.1, h.2.1⟩

/-- C6: submitting the chat message "What is a green roof?" from the
empty store, with the completion call succeeding with
"A green roof is...", leaves exactly the user turn followed by the
assistant turn in the store, and renders the reply. -/
theorem green_roof_scenario :
    assistantInteraction (fun _ _ => Except.ok "A green roof is...")
        ConversationStore.empty "What is a green roof?" =
      ([⟨Role.user, "What is a green roof?"⟩, ⟨Role.assistant, "A green roof is..."⟩],
        Render.content "A green roof is...") := by
  decide

end GreenUrban

namespace GreenUrban

/-- C7: prompt building is pure and deterministic with no failure mode:
`build` is a total `String`-valued function of the template and its
parameter values alone, so two invocations with the same template and
the same parameter values produce identical prompt text; and the
parameters are interpolated as given, with no validation (every value of
the parameter, however malformed, appears verbatim between the fixed
template pieces). -/
theorem build_deterministic (r₁ r₂ : PromptRequest) (h : r₁ = r₂) :
    build r₁ = build r₂ ∧
    ∀ s, ∃ pre post, build (PromptRequest.smartSolutions s) = pre ++ s ++ post := by
  constructor
  · rw [h]
  · intro s
    exact ⟨"Generate 5 innovative ",
      " solutions for smart cities. For each solution, provide:\n1. Solution name\n2. Brief description (2-3 sentences)\n3. Key technology used\n4. Expected impact\n\nFormat as a numbered list.",
      rfl⟩

/-- Witness for C7 at a concrete repeated request. -/
theorem build_deterministic_witness :
    build (PromptRequest.greenTech "Residential" "Arid") =
      build (PromptRequest.greenTech "Residential" "Arid") :=
  (build_deterministic (PromptRequest.greenTech "Residential" "Arid")
    (PromptRequest.greenTech "Residential" "Arid") rfl).1

set_option maxRecDepth 16384

/-- C8: the Green Technologies prompt for building type "Residential" in
climate zone "Arid" contains both literal substrings. -/
theorem green_tech_prompt_contains :
    (∃ pre post, build (PromptRequest.greenTech "Residential" "Arid") =
        pre ++ "Residential" ++ post) ∧
    (∃ pre post, build (PromptRequest.greenTech "Residential" "Arid") =
        pre ++ "Arid" ++ post) := by
  constructor
  · exact ⟨"Recommend 5 specific green building technologies for a ",
      " building in a Arid climate. For each technology:\n1. Technology name\n2. How it works\n3. Energy savings potential\n4. Cost-effectiveness\n5. Implementation difficulty\n\nBe specific and practical.",
      by decide⟩
  · exact ⟨"Recommend 5 specific green building technologies for a Residential building in a ",
      " climate. For each technology:\n1. Technology name\n2. How it works\n3. Energy savings potential\n4. Cost-effectiveness\n5. Implementation difficulty\n\nBe specific and practical.",
      by decide⟩

/-- C9: the Technology ROI prompt for technology "Solar Panels" and
investment amount 50000 contains both literal substrings. -/
theorem tech_roi_prompt_contains :
    (∃ pre post, build (PromptRequest.techROI "Solar Panels" 50000) =
        pre ++ "50000" ++ post) ∧
    (∃ pre post, build (PromptRequest.techROI "Solar Panels" 50000) =
        pre ++ "Solar Panels" ++ post) := by
  constructor
  · exact ⟨"Calculate detailed ROI for Solar Panels with an investment of $",
      ".\n\nInclude:\n1. Payback period\n2. Annual savings\n3. 10-year cost-benefit analysis\n4. Environmental impact (CO2 reduction)\n5. Maintenance costs\n6. Risk factors\n\nUse realistic industry averages.",
      by decide⟩
  · exact ⟨"Calculate detailed ROI for ",
      " with an investment of $50000.\n\nInclude:\n1. Payback period\n2. Annual savings\n3. 10-year cost-benefit analysis\n4. Environmental impact (CO2 reduction)\n5. Maintenance costs\n6. Risk factors\n\nUse realistic industry averages.",
      by decide⟩

/-- The environment where GEMINI_API_KEY is set to the empty string and
GOOGLE_API_KEY is absent. -/
def envEmptyGemini : Env := fun name =>
  if name = "GEMINI_API_KEY" then some "" else none

/-- C10 counterexample: in an environment where GEMINI_API_KEY is set
(to the empty string) and GOOGLE_API_KEY is absent, startup still halts
with the missing-key diagnostic — so it is not the case that
GEMINI_API_KEY is used whenever it is set, nor that startup halts only
when both variables are absent: Python truthiness also discards empty
values. -/
theorem cred_fallback_counterexample :
    envEmptyGemini "GEMINI_API_KEY" = some "" ∧
    envEmptyGemini "GOOGLE_API_KEY" = none ∧
    get_genai_client envEmptyGemini = Except.error missingKeyMsg := by
  refine ⟨by decide, by decide, by rfl⟩

/-- C10 (amended): the credential is GEMINI_API_KEY when that variable
holds a non-empty value; otherwise GOOGLE_API_KEY when that variable
holds a non-empty value; and startup halts with the missing-key
diagnostic exactly when neither variable holds a non-empty value
(absent or set to the empty string). -/
theorem cred_fallback_amended (env : Env) :
    (∀ k, env "GEMINI_API_KEY" = some k → k ≠ "" →
        get_genai_client env = Except.ok ⟨k⟩) ∧
    (pyTruthy (env "GEMINI_API_KEY") = false →
      ∀ k, env "GOOGLE_API_KEY" = some k → k ≠ "" →
        get_genai_client env = Except.ok ⟨k⟩) ∧
    (pyTruthy (env "GEMINI_API_KEY") = false →
      pyTruthy (env "GOOGLE_API_KEY") = false →
        get_genai_client env = Except.error missingKeyMsg) := by
  refine ⟨?_, ?_, ?_⟩
  · intro k hk hne
    simp [get_genai_client, pyOr, pyTruthy, hk, hne]
  · intro hg k hk hne
    simp [get_genai_client, pyOr, hg, hk, hne]
  · intro hg hgoog
    unfold get_genai_client pyOr
    rw [hg]
    cases h : env "GOOGLE_API_KEY" with
    | none => simp
    | some s =>
        rw [h] at hgoog
        simp [pyTruthy] at hgoog
        simp [hgoog]

/-- The environment where both variables hold non-empty keys. -/
def envBoth : Env := fun name =>
  if name = "GEMINI_API_KEY" then some "primary-key"
  else if name = "GOOGLE_API_KEY" then some "fallback-key" else none

/-- Witness for the amended C10 at a concrete environment: with both
variables set non-empty, the GEMINI_API_KEY value is the one used. -/
theorem cred_fallback_amended_witness :
    get_genai_client envBoth = Except.ok ⟨"primary-key"⟩ :=
  (cred_fallback_amended envBoth).1 "primary-key" (by decide) (by decide)

end GreenUrban
